import Mathlib

/-!
# UHT Framework — Installation & Synchronization Orchestrator, shallow embedding

A shallow Lean embedding of the orchestrator core of the UHT framework
(`uht.py`, `lib/os_utils.py`, `lib/tool_manager.py`, `lib/update_checker.py`).
External effects (process execution, filesystem, network) are modelled by an
explicit environment record of outcomes, and each operation returns its boolean
result together with the list of external actions it performed.
-/

namespace UHT

/-! ## Basic string helpers mirroring Python semantics -/

/-- Substring containment on character lists: `pat` occurs contiguously in `s`.
Mirrors Python's `pat in s` on strings. -/
def substringScan (pat : List Char) : List Char → Bool
  | [] => pat.isEmpty
  | c :: rest => pat.isPrefixOf (c :: rest) || substringScan pat rest

/-- The test `strContains s pat` mirrors Python's `pat in s`. -/
def strContains (s pat : String) : Bool :=
  substringScan pat.data s.data

/-- The function `pathSuffix name` mirrors `pathlib.PurePath(name).suffix` for a bare file
name: the extension from the last dot, empty when the dot is leading, trailing
or absent. -/
def pathSuffix (name : String) : String :=
  let cs := name.data
  let rev := cs.reverse
  let tail := rev.takeWhile (fun c => c ≠ '.')
  if rev.contains '.' then
    if 0 < cs.length - 1 - tail.length ∧ tail.length > 0 then
      String.mk ('.' :: tail.reverse)
    else ""
  else ""

/-- Python's `str.strip()`: remove leading and trailing whitespace. -/
def stripStr (s : String) : String :=
  String.mk
    (((s.data.dropWhile Char.isWhitespace).reverse.dropWhile
        Char.isWhitespace).reverse)

/-- Python truthiness of an optional string field: present and non-empty. -/
def optTruthy : Option String → Bool
  | none => false
  | some s => !(s == "")

/-! ## Data model (`config/tools.json` schema, §3 of the spec) -/

/-- A `run_command` is either one command string or a per-OS mapping
(`lib/tool_manager.py`, `run_tool`). -/
inductive RunCommand where
  | str (cmd : String)
  | perOS (table : List (String × String))
  deriving Repr, DecidableEq

/-- One tool definition from the catalog, fields as read by the source. -/
structure Tool where
  name : String
  github_url : Option String
  install_path : Option String
  dependencies : Option (List (String × List String)) := none
  post_install_commands : List String := []
  run_command : RunCommand := RunCommand.str ""
  os_compat : List String := []
  skip_if_os_not_supported : Bool := false
  deriving Repr, DecidableEq

/-- A catalog: category name to its list of tools. -/
abbrev Catalog := List (String × List Tool)

/-- The tool's materialized path: `Path(install_path_str) if install_path_str
else None` — empty string and null both give no path. -/
def Tool.pathOpt (t : Tool) : Option String :=
  match t.install_path with
  | none => none
  | some s => if s == "" then none else some s

/-! ## Environment Detector (`lib/os_utils.py`, `get_os_type`) -/

/-- The host signals `get_os_type` inspects. -/
structure HostSignals where
  androidRootSet : Bool
  termuxDirIsDir : Bool
  system : String
  osReleaseExists : Bool
  osReleaseContent : String
  deriving Repr, DecidableEq

/-- Function `get_os_type` from `lib/os_utils.py`: detects the operating system type
from the host signals, in the source's priority order. -/
def get_os_type (h : HostSignals) : String :=
  if h.androidRootSet || h.termuxDirIsDir then "termux"
  else if h.system == "Linux" then
    if h.osReleaseExists then
      if strContains h.osReleaseContent "ID=debian"
          || strContains h.osReleaseContent "ID_LIKE=debian"
          || strContains h.osReleaseContent "ID=ubuntu" then "debian_based_linux"
      else if strContains h.osReleaseContent "ID=arch"
          || strContains h.osReleaseContent "ID_LIKE=arch" then "arch_based_linux"
      else "linux"
    else "linux"
  else if h.system == "Windows" then "windows"
  else if h.system == "Darwin" then "macos"
  else "unsupported"

/-- The seven OS families of the spec, as the strings the source returns. -/
def osFamilies : List String :=
  ["termux", "debian_based_linux", "arch_based_linux", "windows", "macos",
   "linux", "unsupported"]

/-! ## Compatibility Filter (`uht.py`, `main`, lines 102–123) -/

/-- The per-tool compatibility test of `uht.py` (the `is_compatible` flag):
current OS in `os_compat`, or `"any"` in `os_compat`, or `os_compat` empty and
`skip_if_os_not_supported` false. -/
def isEligible (tool : Tool) (osType : String) : Bool :=
  if tool.os_compat.contains osType then true
  else if tool.os_compat.contains "any" then true
  else if tool.os_compat.isEmpty && !tool.skip_if_os_not_supported then true
  else false

/-- The filtering loop of `uht.py` building `final_compatible_tools`:
a tool with `skip_if_os_not_supported` and not compatible is skipped; then a
tool is appended exactly when compatible. -/
def finalCompatibleTools (tools : List Tool) (osType : String) : List Tool :=
  match tools with
  | [] => []
  | tool :: rest =>
    let c := isEligible tool osType
    if tool.skip_if_os_not_supported && !c then finalCompatibleTools rest osType
    else if c then tool :: finalCompatibleTools rest osType
    else finalCompatibleTools rest osType

/-! ## Effect model

External effects are modelled by an environment of fixed outcomes; each
operation returns its boolean result paired with the trace of external
actions (process invocations) it performed. -/

/-- One external process invocation. -/
inductive Act where
  | whichCmd (name : String)
  | pmUpdate (osType : String)
  | pmInstall (pkg : String)
  | gitPull (path : String)
  | gitClone (url path : String)
  | postCmd (cmd : String)
  | pipInstall (path : String)
  | runExec (cmd : String)
  deriving Repr, DecidableEq

/-- Fixed outcomes of the host: which executables resolve on the search path,
which paths exist before the operation, and whether each external command
succeeds. `pmUpdateOk` is consulted only for a warning in the source, so no
result below depends on it. -/
structure Env where
  cmdExists : String → Bool
  pmUpdateOk : String → Bool
  pmInstallOk : String → Bool
  pathExists : String → Bool
  gitPullOk : String → Bool
  gitCloneOk : String → Bool
  postCmdOk : String → Bool
  reqFileExists : String → Bool
  pipInstallOk : String → Bool
  runCmdOk : String → Bool

/-! ## System Dependency Installer (`lib/os_utils.py`) -/

/-- The names given an interpreter-style presence check in
`install_system_package`. -/
def specialPkgNames : List String :=
  ["python", "python3", "pip", "pip3", "go", "java", "perl", "ruby", "bash",
   "powershell"]

/-- Run the package manager's update command (failure is only warned about)
and then its install command, whose success is the result. -/
def pmUpdateThenInstall (env : Env) (pkg osType : String) (acc : List Act) :
    Bool × List Act :=
  (env.pmInstallOk pkg, acc ++ [Act.pmUpdate osType, Act.pmInstall pkg])

/-- The per-OS package-manager dispatch of `install_system_package`, entered
after the presence probes failed. -/
def attemptPkgInstall (env : Env) (pkg osType : String) (acc : List Act) :
    Bool × List Act :=
  if osType == "termux" then pmUpdateThenInstall env pkg osType acc
  else if osType == "debian_based_linux" then pmUpdateThenInstall env pkg osType acc
  else if osType == "arch_based_linux" then pmUpdateThenInstall env pkg osType acc
  else if osType == "windows" then
    if env.cmdExists "choco" then
      (env.pmInstallOk pkg, acc ++ [Act.whichCmd "choco", Act.pmInstall pkg])
    else if env.cmdExists "winget" then
      (env.pmInstallOk pkg,
       acc ++ [Act.whichCmd "choco", Act.whichCmd "winget", Act.pmInstall pkg])
    else (false, acc ++ [Act.whichCmd "choco", Act.whichCmd "winget"])
  else if osType == "macos" then
    if env.cmdExists "brew" then
      (env.pmInstallOk pkg,
       acc ++ [Act.whichCmd "brew", Act.pmUpdate osType, Act.pmInstall pkg])
    else (false, acc ++ [Act.whichCmd "brew"])
  else (false, acc)

/-- Function `install_system_package` from `lib/os_utils.py`: blank names are trivially
met; a name resolvable on the search path is reported installed at once;
otherwise the OS-appropriate package manager is invoked. -/
def install_system_package (env : Env) (package_name osType : String) :
    Bool × List Act :=
  if stripStr package_name == "" then (true, [])
  else
    let probe : Bool × List Act :=
      if specialPkgNames.contains package_name then
        if env.cmdExists package_name then (true, [Act.whichCmd package_name])
        else if package_name == "java" then
          if env.cmdExists "java" then
            (true, [Act.whichCmd package_name, Act.whichCmd "java"])
          else if env.cmdExists "javac" then
            (true, [Act.whichCmd package_name, Act.whichCmd "java",
                    Act.whichCmd "javac"])
          else
            (false, [Act.whichCmd package_name, Act.whichCmd "java",
                     Act.whichCmd "javac"])
        else (false, [Act.whichCmd package_name])
      else
        if env.cmdExists package_name then (true, [Act.whichCmd package_name])
        else (false, [Act.whichCmd package_name])
    if probe.1 then (true, probe.2)
    else attemptPkgInstall env package_name osType probe.2

/-- Function `install_python_requirements` from `lib/os_utils.py`: when a
`requirements.txt` is present, install it with `pip3` falling back to `pip`;
returns false when the manifest is absent, when no pip exists, or when the
install command fails. -/
def install_python_requirements (env : Env) (tool_path : String) :
    Bool × List Act :=
  if env.reqFileExists tool_path then
    if env.cmdExists "pip3" then
      (env.pipInstallOk tool_path, [Act.whichCmd "pip3", Act.pipInstall tool_path])
    else if env.cmdExists "pip" then
      (env.pipInstallOk tool_path,
       [Act.whichCmd "pip3", Act.whichCmd "pip", Act.pipInstall tool_path])
    else (false, [Act.whichCmd "pip3", Act.whichCmd "pip"])
  else (false, [])

/-! ## Tool Installer/Updater (`lib/tool_manager.py`) -/

/-- Directory-entry kinds seen by `get_installed_tools_names`. -/
inductive EntryKind where
  | dir
  | file
  | other
  deriving Repr, DecidableEq

/-- One immediate child of the installation root. -/
structure FSEntry where
  name : String
  kind : EntryKind
  deriving Repr, DecidableEq

/-- The installation root as seen by `Path.iterdir`. -/
structure DirListing where
  rootExists : Bool
  entries : List FSEntry
  deriving Repr, DecidableEq

/-- The loop body of `get_installed_tools_names`: add a subdirectory's name,
or a plain file's name when its suffix is `.txt`. -/
def scanStep (s : Finset String) (e : FSEntry) : Finset String :=
  match e.kind with
  | EntryKind.dir => insert e.name s
  | EntryKind.file =>
    if pathSuffix e.name == ".txt" then insert e.name s else s
  | EntryKind.other => s

/-- Function `get_installed_tools_names` from `lib/tool_manager.py`: subdirectory
names, plus names of plain files with suffix `.txt`; the empty set when the
root directory does not exist. -/
def get_installed_tools_names (d : DirListing) : Finset String :=
  if d.rootExists then d.entries.foldl scanStep ∅ else ∅

/-- The dependency list for the OS: the OS-specific entry, else `default`,
else empty (`tool_data['dependencies'].get(os_type, ...get('default', []))`). -/
def depsFor (deps : List (String × List String)) (osType : String) :
    List String :=
  match List.lookup osType deps with
  | some l => l
  | none => (List.lookup "default" deps).getD []

/-- The dependency loop of `install_tool`: each dependency through
`install_system_package`, aborting on the first failure. -/
def installDepsLoop (env : Env) (osType : String) :
    List String → Bool × List Act
  | [] => (true, [])
  | dep :: rest =>
    let r := install_system_package env dep osType
    if r.1 then
      let r2 := installDepsLoop env osType rest
      (r2.1, r.2 ++ r2.2)
    else (false, r.2)

/-- The fetch step of `install_tool`: pull when the install path exists,
clone otherwise. -/
def fetchStep (env : Env) (url p : String) : Bool × List Act :=
  if env.pathExists p then (env.gitPullOk p, [Act.gitPull p])
  else (env.gitCloneOk p, [Act.gitClone url p])

/-- The post-install command loop of `install_tool`: run each command with the
placeholder substituted, aborting on the first failure. -/
def runPostCmds (env : Env) (p : String) : List String → Bool × List Act
  | [] => (true, [])
  | cmd :: rest =>
    let formatted := cmd.replace "\x7b\x7binstall_path\x7d\x7d" p
    if env.postCmdOk formatted then
      let r := runPostCmds env p rest
      (r.1, Act.postCmd formatted :: r.2)
    else (false, [Act.postCmd formatted])

/-- Step 3 of `install_tool`: the post-install command block, run only when
commands are declared and the tool is materialized at `pathNow`. -/
def postStep (env : Env) (tool : Tool) (pathNow : Option String) :
    Bool × List Act :=
  if !tool.post_install_commands.isEmpty then
    match pathNow with
    | some p => runPostCmds env p tool.post_install_commands
    | none => (true, [])
  else (true, [])

/-- The actions of step 4 of `install_tool` (the Python-requirements step),
run only when the tool is materialized; its boolean result is only reported,
never propagated. -/
def reqStepActs (env : Env) (pathNow : Option String) : List Act :=
  match pathNow with
  | some p => (install_python_requirements env p).2
  | none => []

/-- Steps 3–4 of `install_tool`: a post-install failure aborts; the
requirements step then runs, its result not affecting the return value. -/
def postAndReqs (env : Env) (tool : Tool) (pathNow : Option String)
    (acc : List Act) : Bool × List Act :=
  if !(postStep env tool pathNow).1 then
    (false, acc ++ (postStep env tool pathNow).2)
  else
    (true, acc ++ (postStep env tool pathNow).2 ++ reqStepActs env pathNow)

/-- Step 1 of `install_tool`: the system-dependency block, entered only when
the tool declares a `dependencies` mapping. -/
def depStep (env : Env) (tool : Tool) (osType : String) : Bool × List Act :=
  match tool.dependencies with
  | none => (true, [])
  | some deps => installDepsLoop env osType (depsFor deps osType)

/-- Function `install_tool` from `lib/tool_manager.py`: system dependencies, then
clone/pull when both `github_url` and `install_path` are truthy, then
post-install commands, then the Python-requirements step. -/
def install_tool (env : Env) (tool : Tool) (osType : String) :
    Bool × List Act :=
  let depsStep := depStep env tool osType
  if !depsStep.1 then (false, depsStep.2)
  else
    let url := tool.github_url.getD ""
    match tool.pathOpt with
    | some p =>
      if optTruthy tool.github_url then
        let f := fetchStep env url p
        if !f.1 then (false, depsStep.2 ++ f.2)
        else postAndReqs env tool (some p) (depsStep.2 ++ f.2)
      else
        postAndReqs env tool (if env.pathExists p then some p else none)
          depsStep.2
    | none => postAndReqs env tool none depsStep.2

/-- Function `run_tool` from `lib/tool_manager.py`: resolve the run command (per-OS
table falling back to `default`), display-only success for path-less tools,
failure when the tool directory is missing, else execute the command. -/
def run_tool (env : Env) (h : HostSignals) (tool : Tool) : Bool × List Act :=
  let current := get_os_type h
  let rc? : Option String :=
    match tool.run_command with
    | RunCommand.str s => some s
    | RunCommand.perOS table =>
      match List.lookup current table with
      | some c => some c
      | none => List.lookup "default" table
  match rc? with
  | none => (false, [])
  | some rc =>
    match tool.pathOpt with
    | none => (true, [])
    | some p =>
      if !(env.pathExists p) then (false, [])
      else (env.runCmdOk rc, [Act.runExec rc])

/-! ## Remote Catalog Synchronizer (`lib/update_checker.py`) -/

/-- Insertion into a Python dict modelled as an association list: an existing
key is overwritten in place, a new key is appended. -/
def dictInsert (d : List (String × Tool)) (k : String) (v : Tool) :
    List (String × Tool) :=
  if d.any (fun p => p.1 == k) then
    d.map (fun p => if p.1 == k then (k, v) else p)
  else d ++ [(k, v)]

/-- The flattening loops of `check_for_tool_updates_and_new_tools`: every
category's tools into one name-keyed dict. -/
def flattenCatalog (c : Catalog) : List (String × Tool) :=
  ((c.map Prod.snd).flatten).foldl (fun d t => dictInsert d t.name t) []

/-- Git-side outcomes consulted by the update scan. `gitStatus p = none`
models any git command in the `try` block failing. -/
structure GitEnv where
  isGitRepoDir : String → Bool
  gitStatus : String → Option String

/-- Function `check_for_tool_updates_and_new_tools` from `lib/update_checker.py`:
returns the new remote tools (installable, not installed, not in the local
catalog) and the installed tools whose git status reports them behind or
diverged. -/
def check_for_tool_updates_and_new_tools (genv : GitEnv)
    (localC remoteC : Catalog) (installed : List String) :
    List Tool × List Tool :=
  if remoteC.isEmpty then ([], [])
  else
    let remoteFlat := flattenCatalog remoteC
    let localFlat := flattenCatalog localC
    let newTools :=
      (remoteFlat.filter (fun p =>
        optTruthy p.2.github_url && optTruthy p.2.install_path &&
        !(installed.contains p.1) &&
        !((List.lookup p.1 localFlat).isSome))).map Prod.snd
    let updates :=
      installed.filterMap (fun toolName =>
        match List.lookup toolName localFlat with
        | none => none
        | some td =>
          if optTruthy td.install_path && optTruthy td.github_url then
            let p := td.install_path.getD ""
            if genv.isGitRepoDir p then
              match genv.gitStatus p with
              | some out =>
                if strContains out "Your branch is behind"
                    || strContains out "have diverged" then some td
                else none
              | none => none
            else none
          else none)
    (newTools, updates)

/-- Network/parse outcomes of the remote fetch, one per `except` branch of
`get_remote_tools_data`. -/
inductive FetchOutcome where
  | success (data : Catalog)
  | timeout
  | connectionError
  | requestError
  | parseError
  deriving Repr, DecidableEq

/-- The distinct error classifications produced by `get_remote_tools_data`:
one per handler (each logs and reports its own message before returning
`None`), plus the unconfigured-URL guard. -/
inductive FetchErr where
  | emptyUrl
  | timeout
  | connectionError
  | requestError
  | parseError
  deriving Repr, DecidableEq

/-- The explicit bound passed to the HTTP GET:
`requests.get(remote_url, timeout=15)`. -/
def requestTimeoutSeconds : Nat := 15

/-- Function `get_remote_tools_data` from `lib/update_checker.py`: the parsed catalog
on success, otherwise no data together with the error classification of the
handler that ran. -/
def get_remote_tools_data (url : String) (outcome : FetchOutcome) :
    Option Catalog × Option FetchErr :=
  if url == "" then (none, some FetchErr.emptyUrl)
  else
    match outcome with
    | FetchOutcome.success d => (some d, none)
    | FetchOutcome.timeout => (none, some FetchErr.timeout)
    | FetchOutcome.connectionError => (none, some FetchErr.connectionError)
    | FetchOutcome.requestError => (none, some FetchErr.requestError)
    | FetchOutcome.parseError => (none, some FetchErr.parseError)

/-- Result of the update-check menu branch of `uht.py`. -/
inductive UpdateCheckOutcome where
  | report (newTools updatable : List Tool)
  | failure
  deriving Repr, DecidableEq

/-- The update-check flow of `uht.py` (`main`, the "Check for Updates" menu
branch): fetch the remote catalog; when truthy data arrives, diff and report
the result; otherwise report failure to the user and continue. -/
def updateCheckFlow (genv : GitEnv) (url : String) (outcome : FetchOutcome)
    (localC : Catalog) (installed : List String) : UpdateCheckOutcome :=
  match (get_remote_tools_data url outcome).1 with
  | some remote =>
    if remote.isEmpty then UpdateCheckOutcome.failure
    else
      let r := check_for_tool_updates_and_new_tools genv localC remote installed
      UpdateCheckOutcome.report r.1 r.2
  | none => UpdateCheckOutcome.failure

/-! ## Auxiliary definitions for the statements -/

/-- An ineligible tool that does not set `skip_if_os_not_supported`. -/
def toolC4 : Tool :=
  { name := "x"
    github_url := none
    install_path := none
    os_compat := ["windows"]
    skip_if_os_not_supported := false }

/-- The condition under which a directory entry is counted as an installed
tool by `get_installed_tools_names`. -/
def countsAsInstalled (e : FSEntry) : Prop :=
  e.kind = EntryKind.dir ∨
    (e.kind = EntryKind.file ∧ pathSuffix e.name = ".txt")

/-- Modelled from the amended claim: whether the post-install command block
succeeds — vacuously when there are no commands or the tool is not
materialized, else every command must succeed. -/
def postsOk (env : Env) (tool : Tool) (pathNow : Option String) : Bool :=
  if !tool.post_install_commands.isEmpty then
    match pathNow with
    | some p =>
      tool.post_install_commands.all
        (fun cmd => env.postCmdOk (cmd.replace "\x7b\x7binstall_path\x7d\x7d" p))
    | none => true
  else true

/-- Modelled from the amended claim: the conjunction of the mandatory steps of
`installOrUpdate` — dependency installation, the clone/pull fetch when both
URL and path are truthy, and the post-install commands when applicable. The
Python-requirements step is absent: its outcome is not supposed to affect the
result. -/
def installMandatoryOk (env : Env) (tool : Tool) (osType : String) : Bool :=
  (depStep env tool osType).1 &&
    match tool.pathOpt with
    | some p =>
      if optTruthy tool.github_url then
        (if env.pathExists p then env.gitPullOk p else env.gitCloneOk p) &&
          postsOk env tool (some p)
      else postsOk env tool (if env.pathExists p then some p else none)
    | none => postsOk env tool none

/-- The environment of the C1 counterexample: the clone succeeds, a
`requirements.txt` is present, `pip3` resolves, and the pip install fails. -/
def envC1 : Env :=
  { cmdExists := fun s => s == "pip3"
    pmUpdateOk := fun _ => true
    pmInstallOk := fun _ => true
    pathExists := fun _ => false
    gitPullOk := fun _ => true
    gitCloneOk := fun _ => true
    postCmdOk := fun _ => true
    reqFileExists := fun _ => true
    pipInstallOk := fun _ => false
    runCmdOk := fun _ => true }

/-- The tool of the C1 counterexample: clonable, no declared dependencies, no
post-install commands. -/
def toolC1 : Tool :=
  { name := "t"
    github_url := some "u"
    install_path := some "p" }

/-! ## Theorems -/

/-- C3: the compatibility filter `isEligible` is a pure, total Boolean
function; it is eligible when `osFamily` is in `osCompat` or `osCompat`
contains the sentinel `any`; else eligible when `osCompat` is empty and
`skipIfOsNotSupported` is false; else not eligible. -/
theorem isEligible_precedence (tool : Tool) (os : String) :
    ((tool.os_compat.contains os = true ∨ tool.os_compat.contains "any" = true) →
      isEligible tool os = true) ∧
    (tool.os_compat = [] → tool.skip_if_os_not_supported = false →
      isEligible tool os = true) ∧
    (tool.os_compat.contains os = false → tool.os_compat.contains "any" = false →
      (tool.os_compat ≠ [] ∨ tool.skip_if_os_not_supported = true) →
      isEligible tool os = false) := by
  unfold isEligible
  refine ⟨?_, ?_, ?_⟩
  · rintro (h | h)
    · have hm : os ∈ tool.os_compat := by simpa using h
      simp [hm]
    · have hm : "any" ∈ tool.os_compat := by simpa using h
      simp [hm]
  · intro h1 h2
    simp [h1, h2]
  · intro h1 h2 h3
    have hm1 : os ∉ tool.os_compat := by simpa using h1
    have hm2 : "any" ∉ tool.os_compat := by simpa using h2
    rcases h3 with h3 | h3 <;> simp_all [List.isEmpty_iff]

/-- Witness for C3 at concrete inputs. -/
theorem isEligible_precedence_witness :
    isEligible { name := "a", github_url := none, install_path := none,
                 os_compat := ["any"] } "macos" = true ∧
    isEligible { name := "b", github_url := none, install_path := none } "macos"
      = true ∧
    isEligible { name := "c", github_url := none, install_path := none,
                 os_compat := ["windows"] } "macos" = false :=
  ⟨(isEligible_precedence _ "macos").1 (Or.inr (by decide)),
   (isEligible_precedence _ "macos").2.1 rfl rfl,
   (isEligible_precedence _ "macos").2.2 (by decide) (by decide)
     (Or.inl (by decide))⟩

/-- C5: `get_os_type` is total and deterministic (a pure function of the host
signals), returns exactly one of the seven OS-family values, and inspects the
signals in the fixed priority order: termux marker first, then Linux distro
classification with generic-linux fallback, then windows/macos by platform
name, else unsupported. The spec's family names `debian_based`/`arch_based`
are the source strings `debian_based_linux`/`arch_based_linux`. -/
theorem get_os_type_classification (h : HostSignals) :
    get_os_type h ∈ osFamilies ∧
    ((h.androidRootSet = true ∨ h.termuxDirIsDir = true) →
      get_os_type h = "termux") ∧
    (h.androidRootSet = false → h.termuxDirIsDir = false →
      h.system = "Linux" → h.osReleaseExists = false →
      get_os_type h = "linux") ∧
    (h.androidRootSet = false → h.termuxDirIsDir = false →
      h.system = "Linux" →
      (get_os_type h = "debian_based_linux" ∨
       get_os_type h = "arch_based_linux" ∨ get_os_type h = "linux")) ∧
    (h.androidRootSet = false → h.termuxDirIsDir = false →
      h.system = "Windows" → get_os_type h = "windows") ∧
    (h.androidRootSet = false → h.termuxDirIsDir = false →
      h.system = "Darwin" → get_os_type h = "macos") ∧
    (h.androidRootSet = false → h.termuxDirIsDir = false →
      h.system ≠ "Linux" → h.system ≠ "Windows" → h.system ≠ "Darwin" →
      get_os_type h = "unsupported") := by
  refine ⟨?_, ?_, ?_, ?_, ?_, ?_, ?_⟩
  · unfold get_os_type osFamilies
    repeat' split
    all_goals simp
  · rintro (h1 | h1) <;> simp [get_os_type, h1]
  · intro h1 h2 h3 h4
    simp [get_os_type, h1, h2, h3, h4]
  · intro h1 h2 h3
    unfold get_os_type
    simp only [h1, h2, h3, Bool.or_self]
    repeat' split
    all_goals simp_all
  · intro h1 h2 h3
    simp [get_os_type, h1, h2, h3]
  · intro h1 h2 h3
    simp [get_os_type, h1, h2, h3]
  · intro h1 h2 h3 h4 h5
    simp [get_os_type, h1, h2, h3, h4, h5]

/-- Witness for C5 at concrete host signals. -/
theorem get_os_type_classification_witness :
    get_os_type ⟨true, false, "Linux", false, ""⟩ = "termux" ∧
    get_os_type ⟨false, false, "SunOS", false, ""⟩ = "unsupported" :=
  ⟨(get_os_type_classification _).2.1 (Or.inl rfl),
   (get_os_type_classification _).2.2.2.2.2.2 rfl rfl (by decide) (by decide)
     (by decide)⟩

/-- C7: `install_system_package` with a blank name returns true with no
external action at all, and for a name whose executable resolves on the search
path it returns true after the single path probe, running no package-manager
update or install command. -/
theorem install_system_package_idempotent (env : Env) (pkg os : String) :
    (stripStr pkg = "" → install_system_package env pkg os = (true, [])) ∧
    (stripStr pkg ≠ "" → env.cmdExists pkg = true →
      install_system_package env pkg os = (true, [Act.whichCmd pkg])) := by
  constructor
  · intro h1
    simp [install_system_package, h1]
  · intro h1 h2
    unfold install_system_package
    simp only [h2]
    split
    · simp_all
    · split <;> simp_all

/-- Witness for C7 at concrete inputs. -/
theorem install_system_package_idempotent_witness :
    install_system_package
      { cmdExists := fun s => s == "git", pmUpdateOk := fun _ => false,
        pmInstallOk := fun _ => false, pathExists := fun _ => false,
        gitPullOk := fun _ => false, gitCloneOk := fun _ => false,
        postCmdOk := fun _ => false, reqFileExists := fun _ => false,
        pipInstallOk := fun _ => false, runCmdOk := fun _ => false }
      " " "macos" = (true, []) ∧
    install_system_package
      { cmdExists := fun s => s == "git", pmUpdateOk := fun _ => false,
        pmInstallOk := fun _ => false, pathExists := fun _ => false,
        gitPullOk := fun _ => false, gitCloneOk := fun _ => false,
        postCmdOk := fun _ => false, reqFileExists := fun _ => false,
        pipInstallOk := fun _ => false, runCmdOk := fun _ => false }
      "git" "macos" = (true, [Act.whichCmd "git"]) :=
  ⟨(install_system_package_idempotent _ " " "macos").1 (by decide),
   (install_system_package_idempotent _ "git" "macos").2 (by decide) (by decide)⟩

/-- C10: when `run_command` is a per-OS mapping containing neither the
detected OS family nor `default`, `run_tool` returns false and executes no
external command. -/
theorem run_tool_no_command (env : Env) (h : HostSignals) (tool : Tool)
    (table : List (String × String))
    (hrc : tool.run_command = RunCommand.perOS table)
    (hos : List.lookup (get_os_type h) table = none)
    (hdef : List.lookup "default" table = none) :
    run_tool env h tool = (false, []) := by
  simp only [run_tool, hrc, hos, hdef]

/-- Witness for C10: a per-OS table with only a `windows` entry, on macOS. -/
theorem run_tool_no_command_witness :
    run_tool
      { cmdExists := fun _ => true, pmUpdateOk := fun _ => true,
        pmInstallOk := fun _ => true, pathExists := fun _ => true,
        gitPullOk := fun _ => true, gitCloneOk := fun _ => true,
        postCmdOk := fun _ => true, reqFileExists := fun _ => true,
        pipInstallOk := fun _ => true, runCmdOk := fun _ => true }
      ⟨false, false, "Darwin", false, ""⟩
      { name := "t", github_url := none, install_path := some "p",
        run_command := RunCommand.perOS [("windows", "t.exe")] }
      = (false, []) :=
  run_tool_no_command _ _ _ [("windows", "t.exe")] rfl (by decide) (by decide)

/-- C8: the remote fetch is issued with the bounded timeout 15s; the timeout,
connection and parse handlers produce pairwise distinct error classifications
(the first two being the spec's `NetworkError` kinds), each non-fatal: the
fetch returns no data instead of raising and the update-check flow reports
failure and continues. -/
theorem get_remote_tools_data_errors (url : String) (genv : GitEnv)
    (localC : Catalog) (installed : List String) (hurl : url ≠ "") :
    get_remote_tools_data url FetchOutcome.timeout
      = (none, some FetchErr.timeout) ∧
    get_remote_tools_data url FetchOutcome.connectionError
      = (none, some FetchErr.connectionError) ∧
    get_remote_tools_data url FetchOutcome.parseError
      = (none, some FetchErr.parseError) ∧
    (FetchErr.timeout ≠ FetchErr.connectionError ∧
     FetchErr.timeout ≠ FetchErr.parseError ∧
     FetchErr.connectionError ≠ FetchErr.parseError) ∧
    updateCheckFlow genv url FetchOutcome.timeout localC installed
      = UpdateCheckOutcome.failure ∧
    updateCheckFlow genv url FetchOutcome.connectionError localC installed
      = UpdateCheckOutcome.failure ∧
    updateCheckFlow genv url FetchOutcome.parseError localC installed
      = UpdateCheckOutcome.failure ∧
    requestTimeoutSeconds = 15 := by
  refine ⟨?_, ?_, ?_, ⟨by decide, by decide, by decide⟩, ?_, ?_, ?_, rfl⟩ <;>
    simp [get_remote_tools_data, updateCheckFlow, hurl]

/-- Witness for C8 at a concrete URL. -/
theorem get_remote_tools_data_errors_witness :
    get_remote_tools_data "https://example.org/tools.json" FetchOutcome.timeout
      = (none, some FetchErr.timeout) ∧
    updateCheckFlow ⟨fun _ => false, fun _ => none⟩
      "https://example.org/tools.json" FetchOutcome.timeout [] []
      = UpdateCheckOutcome.failure := by
  have h := get_remote_tools_data_errors "https://example.org/tools.json"
    ⟨fun _ => false, fun _ => none⟩ [] [] (by decide)
  exact ⟨h.1, h.2.2.2.2.1⟩

/-- C4 counterexample: a tool that is ineligible on the detected OS with
`skip_if_os_not_supported = false` is nevertheless absent from the listing
(`final_compatible_tools`), so it is hidden exactly like a skip-flagged tool,
not shown as incompatible. -/
theorem skip_flag_not_stronger_counterexample :
    toolC4.skip_if_os_not_supported = false ∧
    isEligible toolC4 "macos" = false ∧
    finalCompatibleTools [toolC4] "macos" = [] := by
  refine ⟨rfl, by decide, by decide⟩

/-- C4 (amended): the listing is exactly the eligible tools — a skip-flagged
ineligible tool is excluded entirely, but so is every other ineligible tool;
the skip flag gives no exclusion beyond ordinary ineligibility. -/
theorem finalCompatibleTools_eq_filter (tools : List Tool) (os : String) :
    finalCompatibleTools tools os = tools.filter (fun t => isEligible t os) := by
  induction tools with
  | nil => rfl
  | cons tool rest ih =>
    cases hc : isEligible tool os <;>
      cases hs : tool.skip_if_os_not_supported <;>
        simp [finalCompatibleTools, hc, hs, ih, List.filter_cons]

theorem mem_scanStep (s : Finset String) (e : FSEntry) (n : String) :
    n ∈ scanStep s e ↔ n ∈ s ∨ (e.name = n ∧ countsAsInstalled e) := by
  unfold scanStep countsAsInstalled
  cases e with
  | mk name kind =>
    cases kind with
    | dir =>
      simp [Finset.mem_insert]
      tauto
    | file =>
      by_cases h : pathSuffix name = ".txt"
      all_goals simp [h, beq_iff_eq, Finset.mem_insert]
      all_goals tauto
    | other => simp

theorem mem_foldl_scanStep (entries : List FSEntry) (s : Finset String)
    (n : String) :
    n ∈ entries.foldl scanStep s ↔
      n ∈ s ∨ ∃ e ∈ entries, e.name = n ∧ countsAsInstalled e := by
  induction entries generalizing s with
  | nil => simp
  | cons e rest ih =>
    simp only [List.foldl_cons, ih, mem_scanStep, List.mem_cons]
    constructor
    · rintro ((h | h) | ⟨e', he', h⟩)
      · exact Or.inl h
      · exact Or.inr ⟨e, Or.inl rfl, h⟩
      · exact Or.inr ⟨e', Or.inr he', h⟩
    · rintro (h | ⟨e', (rfl | he'), h⟩)
      · exact Or.inl (Or.inl h)
      · exact Or.inl (Or.inr h)
      · exact Or.inr ⟨e', he', h⟩

/-- C9: the installed-state scan returns the empty set when the installation
root does not exist, and otherwise contains exactly the names of immediate
subdirectories and of immediate plain files with suffix `.txt`. -/
theorem get_installed_tools_names_spec (d : DirListing) (n : String) :
    (d.rootExists = false → get_installed_tools_names d = ∅) ∧
    (n ∈ get_installed_tools_names d ↔
      d.rootExists = true ∧
        ∃ e ∈ d.entries, e.name = n ∧ countsAsInstalled e) := by
  cases hr : d.rootExists
  · simp [get_installed_tools_names, hr]
  · simp [get_installed_tools_names, hr, mem_foldl_scanStep]

/-- Witness for C9 on a concrete directory listing. -/
theorem get_installed_tools_names_spec_witness :
    get_installed_tools_names ⟨false, [⟨"sqlmap", EntryKind.dir⟩]⟩ = ∅ ∧
    "rockyou.txt" ∈ get_installed_tools_names
      ⟨true, [⟨"sqlmap", EntryKind.dir⟩, ⟨"rockyou.txt", EntryKind.file⟩,
              ⟨"notes.md", EntryKind.file⟩]⟩ ∧
    "notes.md" ∉ get_installed_tools_names
      ⟨true, [⟨"sqlmap", EntryKind.dir⟩, ⟨"rockyou.txt", EntryKind.file⟩,
              ⟨"notes.md", EntryKind.file⟩]⟩ := by
  refine ⟨(get_installed_tools_names_spec _ "x").1 rfl, ?_, ?_⟩
  · exact (get_installed_tools_names_spec _ "rockyou.txt").2.mpr
      ⟨rfl, ⟨"rockyou.txt", EntryKind.file⟩, by simp,
        rfl, Or.inr ⟨rfl, by decide⟩⟩
  · intro hmem
    have h := (get_installed_tools_names_spec _ "notes.md").2.mp hmem
    rcases h.2 with ⟨e, he, hname, hk⟩
    rcases hk with hk | hk
    · simp [countsAsInstalled] at he
      rcases he with he | he | he <;> simp_all
    · simp at he
      rcases he with he | he | he <;> simp_all [pathSuffix]

theorem isSome_false_eq_none {α : Type} {o : Option α}
    (h : o.isSome = false) : o = none := by
  cases o <;> simp_all

theorem mem_dictInsert_keyinv (d : List (String × Tool)) (v : Tool)
    (hd : ∀ p ∈ d, p.1 = p.2.name) :
    ∀ p ∈ dictInsert d v.name v, p.1 = p.2.name := by
  intro p hp
  unfold dictInsert at hp
  split at hp
  · rcases List.mem_map.mp hp with ⟨q, hq, hfq⟩
    by_cases hk : (q.1 == v.name) = true
    · rw [if_pos hk] at hfq
      rw [← hfq]
    · rw [if_neg hk] at hfq
      rw [← hfq]
      exact hd q hq
  · rcases List.mem_append.mp hp with h | h
    · exact hd p h
    · simp only [List.mem_singleton] at h
      rw [h]

theorem foldl_dictInsert_keyinv (ts : List Tool) :
    ∀ d : List (String × Tool), (∀ p ∈ d, p.1 = p.2.name) →
      ∀ p ∈ ts.foldl (fun d t => dictInsert d t.name t) d, p.1 = p.2.name := by
  induction ts with
  | nil =>
    intro d hd
    simpa using hd
  | cons t rest ih =>
    intro d hd
    simp only [List.foldl_cons]
    exact ih _ (mem_dictInsert_keyinv d t hd)

/-- In the flattened catalog dict, every key is its tool's name. -/
theorem flattenCatalog_keyinv (c : Catalog) :
    ∀ p ∈ flattenCatalog c, p.1 = p.2.name := by
  unfold flattenCatalog
  exact foldl_dictInsert_keyinv _ [] (by simp)

/-- C2: a remote tool is reported as new exactly when it is in the flattened
remote dict with a truthy source URL and install path, its name is not
installed, and its name is absent from the flattened local catalog; in
particular a remote tool lacking either the URL or the path is never in
`newTools`. -/
theorem newTools_characterization (genv : GitEnv) (localC remoteC : Catalog)
    (installed : List String) (td : Tool) :
    (td ∈ (check_for_tool_updates_and_new_tools genv localC remoteC
            installed).1 ↔
      ((td.name, td) ∈ flattenCatalog remoteC ∧
        optTruthy td.github_url = true ∧ optTruthy td.install_path = true ∧
        installed.contains td.name = false ∧
        List.lookup td.name (flattenCatalog localC) = none)) ∧
    ((optTruthy td.github_url = false ∨ optTruthy td.install_path = false) →
      td ∉ (check_for_tool_updates_and_new_tools genv localC remoteC
            installed).1) := by
  have hiff : td ∈ (check_for_tool_updates_and_new_tools genv localC remoteC
      installed).1 ↔
      ((td.name, td) ∈ flattenCatalog remoteC ∧
        optTruthy td.github_url = true ∧ optTruthy td.install_path = true ∧
        installed.contains td.name = false ∧
        List.lookup td.name (flattenCatalog localC) = none) := by
    by_cases hre : remoteC.isEmpty
    · have h0 : remoteC = [] := List.isEmpty_iff.mp hre
      subst h0
      constructor
      · intro h
        simp [check_for_tool_updates_and_new_tools] at h
      · rintro ⟨hmem, -⟩
        simp [flattenCatalog] at hmem
    · have hne : remoteC.isEmpty = false := by simpa using hre
      have hmain : (check_for_tool_updates_and_new_tools genv localC remoteC
          installed).1 =
          ((flattenCatalog remoteC).filter (fun p =>
            optTruthy p.2.github_url && optTruthy p.2.install_path &&
            !(installed.contains p.1) &&
            !((List.lookup p.1 (flattenCatalog localC)).isSome))).map
            Prod.snd := by
        simp [check_for_tool_updates_and_new_tools, hne]
      rw [hmain]
      constructor
      · intro h
        rcases List.mem_map.mp h with ⟨p, hpf, hsnd⟩
        rcases List.mem_filter.mp hpf with ⟨hpmem, hP⟩
        have hkey := flattenCatalog_keyinv remoteC p hpmem
        obtain ⟨k, v⟩ := p
        simp only at hkey hsnd
        subst hsnd
        subst hkey
        simp only [Bool.and_eq_true, Bool.not_eq_true'] at hP
        obtain ⟨⟨⟨h1, h2⟩, h3⟩, h4⟩ := hP
        exact ⟨hpmem, h1, h2, h3, isSome_false_eq_none h4⟩
      · rintro ⟨hmem, h1, h2, h3, h4⟩
        refine List.mem_map.mpr ⟨(td.name, td), List.mem_filter.mpr
          ⟨hmem, ?_⟩, rfl⟩
        simp only [Bool.and_eq_true, Bool.not_eq_true']
        exact ⟨⟨⟨h1, h2⟩, h3⟩, by rw [h4]; rfl⟩
  refine ⟨hiff, ?_⟩
  intro hlack hm
  rcases hiff.mp hm with ⟨-, h1, h2, -, -⟩
  rcases hlack with hl | hl
  · rw [h1] at hl
    exact Bool.true_eq_false.mp hl
  · rw [h2] at hl
    exact Bool.true_eq_false.mp hl

/-- Witness for C2: one installable new remote tool reported, one manual-only
remote tool never reported. -/
theorem newTools_characterization_witness :
    ({ name := "newtool", github_url := some "https://example/n",
       install_path := some "tools/n" } : Tool) ∈
      (check_for_tool_updates_and_new_tools ⟨fun _ => false, fun _ => none⟩
        [] [("cat", [{ name := "newtool", github_url := some "https://example/n",
                       install_path := some "tools/n" },
                     { name := "manual", github_url := none,
                       install_path := none }])] []).1 ∧
    ({ name := "manual", github_url := none, install_path := none } : Tool) ∉
      (check_for_tool_updates_and_new_tools ⟨fun _ => false, fun _ => none⟩
        [] [("cat", [{ name := "newtool", github_url := some "https://example/n",
                       install_path := some "tools/n" },
                     { name := "manual", github_url := none,
                       install_path := none }])] []).1 := by
  constructor
  · exact (newTools_characterization ⟨fun _ => false, fun _ => none⟩ [] _ []
      _).1.mpr ⟨by decide, by decide, by decide, by decide, by decide⟩
  · exact (newTools_characterization ⟨fun _ => false, fun _ => none⟩ [] _ []
      _).2 (Or.inl (by decide))

theorem noClone_attemptPkgInstall (env : Env) (pkg os u q : String)
    (acc : List Act) (hacc : Act.gitClone u q ∉ acc) :
    Act.gitClone u q ∉ (attemptPkgInstall env pkg os acc).2 := by
  unfold attemptPkgInstall pmUpdateThenInstall
  repeat' split
  all_goals simp_all

theorem noClone_install_system_package (env : Env) (pkg os u q : String) :
    Act.gitClone u q ∉ (install_system_package env pkg os).2 := by
  unfold install_system_package
  repeat' split
  all_goals first
    | exact noClone_attemptPkgInstall env pkg os u q _ (by simp)
    | simp

theorem noClone_installDepsLoop (env : Env) (os u q : String)
    (deps : List String) :
    Act.gitClone u q ∉ (installDepsLoop env os deps).2 := by
  induction deps with
  | nil => simp [installDepsLoop]
  | cons d rest ih =>
    simp only [installDepsLoop]
    split
    · intro h
      rcases List.mem_append.mp h with h | h
      · exact noClone_install_system_package env d os u q h
      · exact ih h
    · exact noClone_install_system_package env d os u q

theorem noClone_depStep (env : Env) (tool : Tool) (os u q : String) :
    Act.gitClone u q ∉ (depStep env tool os).2 := by
  unfold depStep
  split
  · simp
  · exact noClone_installDepsLoop env os u q _

theorem noClone_runPostCmds (env : Env) (p u q : String)
    (cmds : List String) :
    Act.gitClone u q ∉ (runPostCmds env p cmds).2 := by
  induction cmds with
  | nil => simp [runPostCmds]
  | cons cmd rest ih =>
    simp only [runPostCmds]
    split
    · intro h
      rcases List.mem_cons.mp h with h | h
      · exact Act.noConfusion h
      · exact ih h
    · simp

theorem noClone_install_python_requirements (env : Env) (p u q : String) :
    Act.gitClone u q ∉ (install_python_requirements env p).2 := by
  unfold install_python_requirements
  repeat' split
  all_goals simp

theorem noClone_postStep (env : Env) (tool : Tool)
    (pathNow : Option String) (u q : String) :
    Act.gitClone u q ∉ (postStep env tool pathNow).2 := by
  unfold postStep
  repeat' split
  all_goals first
    | exact noClone_runPostCmds _ _ _ _ _
    | simp

theorem noClone_reqStepActs (env : Env) (pathNow : Option String)
    (u q : String) :
    Act.gitClone u q ∉ reqStepActs env pathNow := by
  unfold reqStepActs
  split
  · exact noClone_install_python_requirements _ _ _ _
  · simp

theorem postAndReqs_trace_sub (env : Env) (tool : Tool)
    (pathNow : Option String) (acc : List Act) (a : Act) (ha : a ∈ acc) :
    a ∈ (postAndReqs env tool pathNow acc).2 := by
  unfold postAndReqs
  split
  all_goals simp [ha]

theorem postAndReqs_noClone (env : Env) (tool : Tool)
    (pathNow : Option String) (acc : List Act) (u q : String)
    (h : Act.gitClone u q ∈ (postAndReqs env tool pathNow acc).2) :
    Act.gitClone u q ∈ acc := by
  unfold postAndReqs at h
  split at h
  · rcases List.mem_append.mp h with h | h
    · exact h
    · exact absurd h (noClone_postStep _ _ _ _ _)
  · rcases List.mem_append.mp h with h | h
    · rcases List.mem_append.mp h with h | h
      · exact h
      · exact absurd h (noClone_postStep _ _ _ _ _)
    · exact absurd h (noClone_reqStepActs _ _ _ _)

/-- C6: for a tool with a truthy source URL and install path, when the
install path already exists `install_tool` never performs a clone and (once
the dependency step succeeds) performs a pull, a failing pull forcing a false
result; when the path does not exist it performs a clone of the URL into the
path, a failing clone forcing a false result. -/
theorem install_tool_fetch_discipline (env : Env) (tool : Tool)
    (os url p : String) (hurl : tool.github_url = some url) (hne : url ≠ "")
    (hpath : tool.pathOpt = some p) :
    (env.pathExists p = true →
      ∀ u q, Act.gitClone u q ∉ (install_tool env tool os).2) ∧
    ((depStep env tool os).1 = true → env.pathExists p = true →
      Act.gitPull p ∈ (install_tool env tool os).2 ∧
      (env.gitPullOk p = false → (install_tool env tool os).1 = false)) ∧
    ((depStep env tool os).1 = true → env.pathExists p = false →
      Act.gitClone url p ∈ (install_tool env tool os).2 ∧
      (env.gitCloneOk p = false → (install_tool env tool os).1 = false)) := by
  have htr : optTruthy tool.github_url = true := by
    rw [hurl]
    simpa [optTruthy] using hne
  refine ⟨?_, ?_, ?_⟩
  · intro hex u q
    unfold install_tool
    cases hdep : (depStep env tool os).1 with
    | false => simpa [hdep] using noClone_depStep env tool os u q
    | true =>
      simp only [hdep, hpath, htr, Bool.not_true, Bool.false_eq_true,
        if_false, fetchStep, hex, if_true]
      split
      · intro h
        rcases List.mem_append.mp h with h | h
        · exact noClone_depStep env tool os u q h
        · simp at h
      · intro h
        have h' := postAndReqs_noClone _ _ _ _ _ _ h
        rcases List.mem_append.mp h' with h' | h'
        · exact noClone_depStep env tool os u q h'
        · simp at h'
  · intro hdep hex
    unfold install_tool
    simp only [hdep, hpath, htr, Bool.not_true, Bool.false_eq_true, if_false,
      fetchStep, hex, if_true]
    constructor
    · split
      · simp
      · exact postAndReqs_trace_sub _ _ _ _ _ (by simp)
    · intro hpull
      simp [hpull]
  · intro hdep hex
    have hget : tool.github_url.getD "" = url := by rw [hurl]; rfl
    unfold install_tool
    simp only [hdep, hpath, htr, Bool.not_true, Bool.false_eq_true, if_false,
      fetchStep, hex, hget]
    constructor
    · cases hclone : env.gitCloneOk p with
      | false => simp [hclone]
      | true =>
        rw [if_pos trivial, if_neg (by decide)]
        exact postAndReqs_trace_sub _ _ _ _ _ (by simp)
    · intro hclone
      simp [hclone]

/-- Witness for C6: a concrete tool whose install path exists, with a failing
pull. -/
theorem install_tool_fetch_discipline_witness :
    (∀ u q, Act.gitClone u q ∉ (install_tool
      { cmdExists := fun _ => true, pmUpdateOk := fun _ => true,
        pmInstallOk := fun _ => true, pathExists := fun _ => true,
        gitPullOk := fun _ => false, gitCloneOk := fun _ => true,
        postCmdOk := fun _ => true, reqFileExists := fun _ => false,
        pipInstallOk := fun _ => true, runCmdOk := fun _ => true }
      { name := "s", github_url := some "https://example/s",
        install_path := some "tools/s" } "termux").2) ∧
    Act.gitPull "tools/s" ∈ (install_tool
      { cmdExists := fun _ => true, pmUpdateOk := fun _ => true,
        pmInstallOk := fun _ => true, pathExists := fun _ => true,
        gitPullOk := fun _ => false, gitCloneOk := fun _ => true,
        postCmdOk := fun _ => true, reqFileExists := fun _ => false,
        pipInstallOk := fun _ => true, runCmdOk := fun _ => true }
      { name := "s", github_url := some "https://example/s",
        install_path := some "tools/s" } "termux").2 ∧
    (install_tool
      { cmdExists := fun _ => true, pmUpdateOk := fun _ => true,
        pmInstallOk := fun _ => true, pathExists := fun _ => true,
        gitPullOk := fun _ => false, gitCloneOk := fun _ => true,
        postCmdOk := fun _ => true, reqFileExists := fun _ => false,
        pipInstallOk := fun _ => true, runCmdOk := fun _ => true }
      { name := "s", github_url := some "https://example/s",
        install_path := some "tools/s" } "termux").1 = false := by
  have h := install_tool_fetch_discipline
    { cmdExists := fun _ => true, pmUpdateOk := fun _ => true,
      pmInstallOk := fun _ => true, pathExists := fun _ => true,
      gitPullOk := fun _ => false, gitCloneOk := fun _ => true,
      postCmdOk := fun _ => true, reqFileExists := fun _ => false,
      pipInstallOk := fun _ => true, runCmdOk := fun _ => true }
    { name := "s", github_url := some "https://example/s",
      install_path := some "tools/s" } "termux" "https://example/s" "tools/s"
    rfl (by decide) rfl
  exact ⟨h.1 rfl, (h.2.1 (by decide) rfl).1, (h.2.1 (by decide) rfl).2 rfl⟩

theorem runPostCmds_fst (env : Env) (p : String) (cmds : List String) :
    (runPostCmds env p cmds).1 = cmds.all
      (fun cmd => env.postCmdOk (cmd.replace "\x7b\x7binstall_path\x7d\x7d" p)) := by
  induction cmds with
  | nil => rfl
  | cons cmd rest ih =>
    simp only [runPostCmds, List.all_cons]
    cases h : env.postCmdOk (cmd.replace "\x7b\x7binstall_path\x7d\x7d" p) <;>
      simp [h, ih]

theorem postStep_fst (env : Env) (tool : Tool) (pathNow : Option String) :
    (postStep env tool pathNow).1 = postsOk env tool pathNow := by
  unfold postStep postsOk
  split
  · cases pathNow <;> simp [runPostCmds_fst]
  · rfl

theorem postAndReqs_fst (env : Env) (tool : Tool) (pathNow : Option String)
    (acc : List Act) :
    (postAndReqs env tool pathNow acc).1 = (postStep env tool pathNow).1 := by
  unfold postAndReqs
  cases h : (postStep env tool pathNow).1 <;> simp [h]

/-- The boolean result of `install_tool` coincides with the conjunction of
its mandatory steps; in particular it never depends on the
Python-requirements outcome. -/
theorem install_tool_fst_eq (env : Env) (tool : Tool) (os : String) :
    (install_tool env tool os).1 = installMandatoryOk env tool os := by
  simp only [install_tool, installMandatoryOk]
  cases hdep : (depStep env tool os).1 with
  | false => simp [hdep]
  | true =>
    simp only [hdep, Bool.not_true, Bool.false_eq_true, if_false,
      Bool.true_and]
    cases hp : tool.pathOpt with
    | none => simp [postAndReqs_fst, postStep_fst]
    | some p =>
      cases hurl : optTruthy tool.github_url with
      | false => simp [hurl, postAndReqs_fst, postStep_fst]
      | true =>
        simp only [hurl, if_true]
        unfold fetchStep
        cases hex : env.pathExists p with
        | true =>
          cases hpull : env.gitPullOk p <;>
            simp [hex, hpull, postAndReqs_fst, postStep_fst]
        | false =>
          cases hclone : env.gitCloneOk p <;>
            simp [hex, hclone, postAndReqs_fst, postStep_fst]

theorem install_system_package_pip_congr (env : Env) (f g : String → Bool)
    (pkg os : String) :
    install_system_package { env with reqFileExists := f, pipInstallOk := g }
      pkg os = install_system_package env pkg os := rfl

theorem installDepsLoop_pip_congr (env : Env) (f g : String → Bool)
    (os : String) (deps : List String) :
    installDepsLoop { env with reqFileExists := f, pipInstallOk := g } os deps
      = installDepsLoop env os deps := by
  induction deps with
  | nil => rfl
  | cons d rest ih =>
    simp only [installDepsLoop, install_system_package_pip_congr, ih]

theorem depStep_pip_congr (env : Env) (f g : String → Bool) (tool : Tool)
    (os : String) :
    depStep { env with reqFileExists := f, pipInstallOk := g } tool os
      = depStep env tool os := by
  unfold depStep
  cases h : tool.dependencies with
  | none => rfl
  | some deps => exact installDepsLoop_pip_congr env f g os (depsFor deps os)

theorem installMandatoryOk_pip_congr (env : Env) (f g : String → Bool)
    (tool : Tool) (os : String) :
    installMandatoryOk { env with reqFileExists := f, pipInstallOk := g }
      tool os = installMandatoryOk env tool os := by
  unfold installMandatoryOk
  rw [depStep_pip_congr]
  rfl

/-- C1 counterexample: for `toolC1` in `envC1` the dependency and fetch steps
succeed, `requirements.txt` is present, the pip install runs and fails — yet
`install_tool` returns true. -/
theorem install_tool_pip_failure_counterexample :
    envC1.reqFileExists "p" = true ∧
    (install_python_requirements envC1 "p").1 = false ∧
    Act.pipInstall "p" ∈ (install_tool envC1 toolC1 "linux").2 ∧
    (install_tool envC1 toolC1 "linux").1 = true := by
  decide

/-- C1 (amended): `install_tool` returns true exactly when the mandatory
steps — dependencies, the clone/pull fetch when applicable, and the
post-install commands when applicable — succeed; the requirements-install
outcome (manifest presence and pip result) never affects the returned
value. -/
theorem install_tool_result_amended (env : Env) (tool : Tool) (os : String) :
    (install_tool env tool os).1 = installMandatoryOk env tool os ∧
    ∀ f g, (install_tool { env with reqFileExists := f, pipInstallOk := g }
      tool os).1 = (install_tool env tool os).1 := by
  refine ⟨install_tool_fst_eq env tool os, ?_⟩
  intro f g
  rw [install_tool_fst_eq, install_tool_fst_eq, installMandatoryOk_pip_congr]

end UHT
